import Mathlib

/-!
Verification of the EIP-7702 sponsored-transaction builder
(nazt/eip7702-example).  Bytes are modelled as `List Nat` with every
element below 256 where it matters.  The RLP codec and keccak256 are
embedded as executable Lean functions; the ECDSA signing primitive of
the external `ethers` library is a parameter of every pipeline that
uses it.
-/

set_option maxRecDepth 100000
set_option maxHeartbeats 4000000

namespace Eip7702

/-- Minimal big-endian byte representation of a natural number,
with `0` mapping to the empty list (the canonical RLP integer form).
Structural recursion on a fuel argument; `natToBE` supplies `n` itself
as fuel, which always suffices. -/
def natToBEAux : Nat → Nat → List Nat
  | 0, _ => []
  | fuel + 1, n => if n = 0 then [] else natToBEAux fuel (n / 256) ++ [n % 256]

/-- Minimal big-endian bytes of `n`; `natToBE 0 = []`. -/
def natToBE (n : Nat) : List Nat :=
  natToBEAux n n

/-- `ethers.toBeHex` semantics: hex string of `n`, left-padded with one
nibble to an even length.  For `n > 0` this is the minimal big-endian
byte form; for `n = 0` it is the single byte `0x00` (NOT the empty
string).  Embeds the integer-to-bytes conversion the scripts apply to
chainId, nonces, fees, gasLimit and value before RLP encoding. -/
def toBeBytes (n : Nat) : List Nat :=
  if n = 0 then [0] else natToBE n

/-- RLP items: a byte-string or an ordered sequence of items
(`ethers.encodeRlp` input shape). -/
inductive RlpItem where
  | bytes : List Nat → RlpItem
  | list : List RlpItem → RlpItem

/-- Length header of an RLP payload: short form `base + len` for
`len ≤ 55`, else `base + 55 + |be(len)|` followed by `be(len)`. -/
def rlpHeader (base len : Nat) : List Nat :=
  if len ≤ 55 then [base + len]
  else (base + 55 + (natToBE len).length) :: natToBE len

/-- RLP encoding of a byte-string (`_encode` in ethers: a single byte
`≤ 0x7f` is its own encoding, otherwise header `0x80+…`). -/
def rlpEncodeBytes (b : List Nat) : List Nat :=
  if b.length = 1 ∧ b.headD 0 ≤ 0x7f then b
  else rlpHeader 0x80 b.length ++ b

mutual

/-- RLP encoding, translated from the recursive `_encode` of
`ethers.encodeRlp` as used by every script. -/
def rlpEncode : RlpItem → List Nat
  | .bytes b => rlpEncodeBytes b
  | .list items => rlpHeader 0xc0 (rlpEncodeItems items).length ++ rlpEncodeItems items

/-- Concatenation of the encodings of the children of a list item. -/
def rlpEncodeItems : List RlpItem → List Nat
  | [] => []
  | i :: rest => rlpEncode i ++ rlpEncodeItems rest

end

/-! ## keccak256

Executable embedding of the keccak-256 hash (`ethers.keccak256`):
64-bit lanes are naturals below `2^64`, the state is the flat list of
25 lanes indexed by `x + 5 * y`. -/

/-- Mask to 64 bits. -/
def mask64 (n : Nat) : Nat := n % (2 ^ 64)

/-- 64-bit left rotation. -/
def rot64 (x n : Nat) : Nat :=
  mask64 (x <<< (n % 64)) ||| (mask64 x >>> (64 - n % 64))

/-- 64-bit bitwise complement. -/
def not64 (x : Nat) : Nat := x ^^^ (2 ^ 64 - 1)

/-- Round constants for the ι step. -/
def keccakRC : List Nat :=
  [0x0000000000000001, 0x0000000000008082, 0x800000000000808a,
   0x8000000080008000, 0x000000000000808b, 0x0000000080000001,
   0x8000000080008081, 0x8000000000008009, 0x000000000000008a,
   0x0000000000000088, 0x0000000080008009, 0x000000008000000a,
   0x000000008000808b, 0x800000000000008b, 0x8000000000008089,
   0x8000000000008003, 0x8000000000008002, 0x8000000000000080,
   0x000000000000800a, 0x800000008000000a, 0x8000000080008081,
   0x8000000000008080, 0x0000000080000001, 0x8000000080008008]

/-- One keccak-f round: θ, ρ, π, χ, then ι with round constant `rc`.
The state is the flat 25-lane list indexed by `x + 5 * y`; the lanes
are written out explicitly so the kernel can evaluate each round with
plain 64-bit natural arithmetic. -/
def keccakRound (a : List Nat) (rc : Nat) : List Nat :=
  match a with
  | [a0, a1, a2, a3, a4, a5, a6, a7, a8, a9, a10, a11, a12,
     a13, a14, a15, a16, a17, a18, a19, a20, a21, a22, a23, a24] =>
    let c0 := a0 ^^^ a5 ^^^ a10 ^^^ a15 ^^^ a20
    let c1 := a1 ^^^ a6 ^^^ a11 ^^^ a16 ^^^ a21
    let c2 := a2 ^^^ a7 ^^^ a12 ^^^ a17 ^^^ a22
    let c3 := a3 ^^^ a8 ^^^ a13 ^^^ a18 ^^^ a23
    let c4 := a4 ^^^ a9 ^^^ a14 ^^^ a19 ^^^ a24
    let d0 := c4 ^^^ rot64 c1 1
    let d1 := c0 ^^^ rot64 c2 1
    let d2 := c1 ^^^ rot64 c3 1
    let d3 := c2 ^^^ rot64 c4 1
    let d4 := c3 ^^^ rot64 c0 1
    let t0 := a0 ^^^ d0
    let t1 := a1 ^^^ d1
    let t2 := a2 ^^^ d2
    let t3 := a3 ^^^ d3
    let t4 := a4 ^^^ d4
    let t5 := a5 ^^^ d0
    let t6 := a6 ^^^ d1
    let t7 := a7 ^^^ d2
    let t8 := a8 ^^^ d3
    let t9 := a9 ^^^ d4
    let t10 := a10 ^^^ d0
    let t11 := a11 ^^^ d1
    let t12 := a12 ^^^ d2
    let t13 := a13 ^^^ d3
    let t14 := a14 ^^^ d4
    let t15 := a15 ^^^ d0
    let t16 := a16 ^^^ d1
    let t17 := a17 ^^^ d2
    let t18 := a18 ^^^ d3
    let t19 := a19 ^^^ d4
    let t20 := a20 ^^^ d0
    let t21 := a21 ^^^ d1
    let t22 := a22 ^^^ d2
    let t23 := a23 ^^^ d3
    let t24 := a24 ^^^ d4
    let b0 := t0
    let b1 := rot64 t6 44
    let b2 := rot64 t12 43
    let b3 := rot64 t18 21
    let b4 := rot64 t24 14
    let b5 := rot64 t3 28
    let b6 := rot64 t9 20
    let b7 := rot64 t10 3
    let b8 := rot64 t16 45
    let b9 := rot64 t22 61
    let b10 := rot64 t1 1
    let b11 := rot64 t7 6
    let b12 := rot64 t13 25
    let b13 := rot64 t19 8
    let b14 := rot64 t20 18
    let b15 := rot64 t4 27
    let b16 := rot64 t5 36
    let b17 := rot64 t11 10
    let b18 := rot64 t17 15
    let b19 := rot64 t23 56
    let b20 := rot64 t2 62
    let b21 := rot64 t8 55
    let b22 := rot64 t14 39
    let b23 := rot64 t15 41
    let b24 := rot64 t21 2
    [b0 ^^^ (not64 b1 &&& b2) ^^^ rc,
     b1 ^^^ (not64 b2 &&& b3),
     b2 ^^^ (not64 b3 &&& b4),
     b3 ^^^ (not64 b4 &&& b0),
     b4 ^^^ (not64 b0 &&& b1),
     b5 ^^^ (not64 b6 &&& b7),
     b6 ^^^ (not64 b7 &&& b8),
     b7 ^^^ (not64 b8 &&& b9),
     b8 ^^^ (not64 b9 &&& b5),
     b9 ^^^ (not64 b5 &&& b6),
     b10 ^^^ (not64 b11 &&& b12),
     b11 ^^^ (not64 b12 &&& b13),
     b12 ^^^ (not64 b13 &&& b14),
     b13 ^^^ (not64 b14 &&& b10),
     b14 ^^^ (not64 b10 &&& b11),
     b15 ^^^ (not64 b16 &&& b17),
     b16 ^^^ (not64 b17 &&& b18),
     b17 ^^^ (not64 b18 &&& b19),
     b18 ^^^ (not64 b19 &&& b15),
     b19 ^^^ (not64 b15 &&& b16),
     b20 ^^^ (not64 b21 &&& b22),
     b21 ^^^ (not64 b22 &&& b23),
     b22 ^^^ (not64 b23 &&& b24),
     b23 ^^^ (not64 b24 &&& b20),
     b24 ^^^ (not64 b20 &&& b21)]
  | _ => []

/-- The keccak-f[1600] permutation: 24 rounds. -/
def keccakF (a : List Nat) : List Nat :=
  keccakRC.foldl keccakRound a

/-- A little-endian 8-byte chunk as a 64-bit lane. -/
def bytesToLane (bs : List Nat) : Nat :=
  bs.foldr (fun b acc => b + 256 * acc) 0

/-- The low 8 bytes of a lane, little-endian. -/
def laneToBytes (x : Nat) : List Nat :=
  (List.range 8).map fun i => (x >>> (8 * i)) % 256

/-- keccak pad10*1 for rate 136 (keccak-256 suffix `0x01`). -/
def keccakPad (msg : List Nat) : List Nat :=
  let padLen := 136 - msg.length % 136
  if padLen = 1 then msg ++ [0x81]
  else msg ++ [0x01] ++ List.replicate (padLen - 2) 0 ++ [0x80]

/-- Absorb one 136-byte block into the state and permute. -/
def absorbBlock (st block : List Nat) : List Nat :=
  keccakF ((List.range 25).map fun i =>
    st.getD i 0 ^^^ (if i < 17 then bytesToLane ((block.drop (8 * i)).take 8) else 0))

/-- Absorb `n` blocks of the (padded) message. -/
def absorbAux : Nat → List Nat → List Nat → List Nat
  | 0, st, _ => st
  | n + 1, st, bs => absorbAux n (absorbBlock st (bs.take 136)) (bs.drop 136)

/-- keccak-256 of a byte-string, as a 32-byte list. -/
def keccak256 (msg : List Nat) : List Nat :=
  let padded := keccakPad msg
  let st := absorbAux (padded.length / 136) (List.replicate 25 0) padded
  ((List.range 4).map fun i => laneToBytes (st.getD i 0)).flatten

/-! ## Signatures and authorizations

Embedding of the script-level pipeline shared by
`scripts/sponsoredTransaction.js`, `scripts/testSponsor.js` and the
unnamed `logEmitterEIP7702` / debug scripts.  The external secp256k1
signer (`wallet.signingKey.sign`) is passed in as a function
`sign : List Nat → Sig` from 32-byte digests to signatures. -/

/-- An ECDSA signature as returned by `ethers` `SigningKey.sign`:
`yParity ∈ {0, 1}` plus the 32-byte `r` and `s` components. -/
structure Sig where
  yParity : Nat
  r : List Nat
  s : List Nat
deriving DecidableEq

/-- The ternary `sig.yParity == 0 ? '0x' : '0x01'` every script applies
before placing the recovery id into an RLP list. -/
def yParityBytes (y : Nat) : List Nat :=
  if y = 0 then [] else [1]

/-- `ethers` `Signature.v`: the legacy `27`/`28` form of the recovery
id, used only in the `sponsoredTransfer` calldata of the relay
scripts. -/
def sigV (yParity : Nat) : Nat := 27 + yParity

/-- The unsigned EIP-7702 authorization tuple built by the scripts
(fields already in byte form, as the scripts store hex strings). -/
structure AuthorizationData where
  chainId : List Nat
  address : List Nat
  nonce : List Nat
deriving DecidableEq

/-- A signed authorization: the tuple plus the stored signature
components (`yParity` already in its byte form). -/
structure SignedAuthorization where
  chainId : List Nat
  address : List Nat
  nonce : List Nat
  yParity : List Nat
  r : List Nat
  s : List Nat
deriving DecidableEq

/-- `encodedAuthorizationData`: the single magic byte `0x05` followed
by the RLP encoding of `[chainId, address, nonce]`. -/
def encodedAuthorizationData (a : AuthorizationData) : List Nat :=
  0x05 :: rlpEncode (.list [.bytes a.chainId, .bytes a.address, .bytes a.nonce])

/-- `authorizationDataHash = keccak256(encodedAuthorizationData)`. -/
def authorizationDataHash (a : AuthorizationData) : List Nat :=
  keccak256 (encodedAuthorizationData a)

/-- The authority signs the authorization hash and the scripts store
`{yParity (byteified), r, s}` next to the tuple. -/
def signAuthorization (sign : List Nat → Sig) (a : AuthorizationData) :
    SignedAuthorization :=
  let s := sign (authorizationDataHash a)
  { chainId := a.chainId, address := a.address, nonce := a.nonce,
    yParity := yParityBytes s.yParity, r := s.r, s := s.s }

/-- `scripts/sponsoredTransaction.js` lines 59-63: the authorization
tuple is built with `nonce: ethers.toBeHex(sponsorNonce)` — the
SPONSOR's transaction count — regardless of the authority's own
account nonce (`testSponsor.js` and the debug script do the same; the
`logEmitterEIP7702` script instead uses the authority's
`aliceNonce`). -/
def sponsoredTxAuthorizationData (chainIdHex delegate : List Nat)
    (sponsorNonce : Nat) : AuthorizationData :=
  { chainId := chainIdHex, address := delegate, nonce := toBeBytes sponsorNonce }

/-- `logEmitterEIP7702` (unnamed part_002) lines 83-87: the same tuple
built with the AUTHORITY's transaction count `aliceNonce`. -/
def logEmitterAuthorizationData (chainIdHex delegate : List Nat)
    (aliceNonce : Nat) : AuthorizationData :=
  { chainId := chainIdHex, address := delegate, nonce := toBeBytes aliceNonce }

/-! ## Transaction builder/encoder -/

/-- One EIP-2930 access-list entry (the scripts only ever build the
empty access list, but the wire shape is `[address, storageKeys]`). -/
structure AccessEntry where
  address : List Nat
  storageKeys : List (List Nat)
deriving DecidableEq

/-- The 10-field transaction request assembled as `txData` by every
script (all integer fields already converted to bytes). -/
structure TransactionRequest where
  chainId : List Nat
  nonce : List Nat
  maxPriorityFeePerGas : List Nat
  maxFeePerGas : List Nat
  gasLimit : List Nat
  destination : List Nat
  value : List Nat
  data : List Nat
  accessList : List AccessEntry
  authorizationList : List SignedAuthorization
deriving DecidableEq

/-- Wire item of an access-list entry. -/
def accessEntryItem (e : AccessEntry) : RlpItem :=
  .list [.bytes e.address, .list (e.storageKeys.map .bytes)]

/-- The 6-element RLP list a signed authorization becomes inside
`txData`: `[chainId, address, nonce, yParity, r, s]`. -/
def authorizationItem (a : SignedAuthorization) : RlpItem :=
  .list [.bytes a.chainId, .bytes a.address, .bytes a.nonce,
         .bytes a.yParity, .bytes a.r, .bytes a.s]

/-- The ordered 10-item `txData` sequence of the scripts. -/
def txFields (t : TransactionRequest) : List RlpItem :=
  [.bytes t.chainId, .bytes t.nonce, .bytes t.maxPriorityFeePerGas,
   .bytes t.maxFeePerGas, .bytes t.gasLimit, .bytes t.destination,
   .bytes t.value, .bytes t.data,
   .list (t.accessList.map accessEntryItem),
   .list (t.authorizationList.map authorizationItem)]

/-- `encodedTxData`: type byte `0x04` followed by the RLP encoding of
the 10-field list — the sponsor's signing payload. -/
def encodedTxData (t : TransactionRequest) : List Nat :=
  0x04 :: rlpEncode (.list (txFields t))

/-- `txDataHash = keccak256(encodedTxData)`, the digest the sponsor
signs. -/
def txDataHash (t : TransactionRequest) : List Nat :=
  keccak256 (encodedTxData t)

/-- `signedTx`: type byte `0x04` followed by the RLP encoding of the
10 fields with `[yParityBytes, r, s]` appended (13 items). -/
def signedTx (t : TransactionRequest) (sig : Sig) : List Nat :=
  0x04 :: rlpEncode (.list (txFields t ++
    [.bytes (yParityBytes sig.yParity), .bytes sig.r, .bytes sig.s]))

/-- The full sponsor pipeline: hash the signing payload, sign it with
the sponsor's key, append the signature. -/
def sponsorSignedTx (sign : List Nat → Sig) (t : TransactionRequest) : List Nat :=
  signedTx t (sign (txDataHash t))

/-- The wire bytes as §4.4 and §6 of the spec word them: `0x04`
followed by the RLP encoding of the 13-element list of the 10 request
fields and the signature triple, the recovery id carried as a minimal
big-endian integer (empty bytes for `0`).  Spec-side definition, to be
compared against the scripts' `signedTx`. -/
def specFinalizeBytes (t : TransactionRequest) (sig : Sig) : List Nat :=
  0x04 :: rlpEncode (.list (txFields t ++
    [.bytes (natToBE sig.yParity), .bytes sig.r, .bytes sig.s]))

/-! ## finalize with UnsignedPayloadError

The scripts construct `signedTx` inline right after signing, so the
failure path of §4.4 has no code under `src/`; it is modelled from the
spec below. -/

/-- Modelled from the spec: the error taxonomy entry
`UnsignedPayloadError` of §7 ("attempt to finalize without a matching
signature"); no script in `src/` implements it. -/
inductive BuilderError where
  | UnsignedPayloadError
deriving DecidableEq

/-- A signature together with the exact payload bytes it was computed
over, as produced by the signing step. -/
structure SignedPayload where
  payload : List Nat
  signature : Sig
deriving DecidableEq

/-- Modelled from the spec: `finalize` of §4.4/§4.4-Failure — it
serializes the 13-field list only when a signature exists for the
exact signing-payload bytes being finalized, and fails with
`UnsignedPayloadError` otherwise. -/
def finalize (t : TransactionRequest) (st : Option SignedPayload) :
    Except BuilderError (List Nat) :=
  match st with
  | none => .error .UnsignedPayloadError
  | some sp =>
    if sp.payload = encodedTxData t then .ok (signedTx t sp.signature)
    else .error .UnsignedPayloadError

/-! ## EIP-712 structured-data signer (relay pattern)

Embedding of the `signTypedData` call of `sponsorEIP7702.js` (and the
debug / simple variants): domain `{name: "Sponsor", version: "1",
chainId, verifyingContract}` and schema
`SponsoredTransfer(address sender,address recipient,uint256 amount,uint256 nonce)`. -/

/-- UTF-8 bytes of an ASCII string. -/
def strBytes (s : String) : List Nat :=
  s.data.map Char.toNat

/-- Big-endian bytes of `n` over a fixed width `w`. -/
def beW : Nat → Nat → List Nat
  | 0, _ => []
  | w + 1, n => beW w (n / 256) ++ [n % 256]

/-- 32-byte big-endian form of a `uint256` value. -/
def be32 (n : Nat) : List Nat :=
  beW 32 n

/-- The value a big-endian byte list denotes. -/
def beVal (l : List Nat) : Nat :=
  l.foldl (fun acc b => acc * 256 + b) 0

/-- A 20-byte address left-padded to 32 bytes. -/
def addr32 (a : List Nat) : List Nat :=
  List.replicate 12 0 ++ a

/-- The canonical type signature string of the message schema. -/
def sponsoredTransferTypeStr : List Nat :=
  strBytes "SponsoredTransfer(address sender,address recipient,uint256 amount,uint256 nonce)"

/-- The canonical EIP-712 domain type signature string. -/
def domainTypeStr : List Nat :=
  strBytes "EIP712Domain(string name,string version,uint256 chainId,address verifyingContract)"

/-- An EIP-712 domain (strings already as bytes). -/
structure Eip712Domain where
  name : List Nat
  version : List Nat
  chainId : Nat
  verifyingContract : List Nat
deriving DecidableEq

/-- The domain every relay script constructs:
`{name: "Sponsor", version: "1", chainId, verifyingContract}`. -/
def sponsorDomain (chainId : Nat) (verifyingContract : List Nat) : Eip712Domain :=
  { name := strBytes "Sponsor", version := strBytes "1",
    chainId := chainId, verifyingContract := verifyingContract }

/-- The relay message `{sender, recipient, amount, nonce}`. -/
structure SponsoredTransferMsg where
  sender : List Nat
  recipient : List Nat
  amount : Nat
  nonce : Nat
deriving DecidableEq

/-- ABI-style field encoding of the message (type-hash followed by the
padded field values; the nonce occupies the final 32 bytes). -/
def msgEncodeData (m : SponsoredTransferMsg) : List Nat :=
  keccak256 sponsoredTransferTypeStr ++ addr32 m.sender ++ addr32 m.recipient ++
    be32 m.amount ++ be32 m.nonce

/-- `hashStruct` of the message. -/
def hashStructMsg (m : SponsoredTransferMsg) : List Nat :=
  keccak256 (msgEncodeData m)

/-- `hashStruct` of the domain (strings pre-hashed). -/
def hashStructDomain (d : Eip712Domain) : List Nat :=
  keccak256 (keccak256 domainTypeStr ++ keccak256 d.name ++ keccak256 d.version ++
    be32 d.chainId ++ addr32 d.verifyingContract)

/-- The two-stage domain-separated typed-data hash:
`keccak256(0x19 0x01 ‖ hashStruct(domain) ‖ hashStruct(message))`. -/
def hashTypedData (d : Eip712Domain) (m : SponsoredTransferMsg) : List Nat :=
  keccak256 ([0x19, 0x01] ++ hashStructDomain d ++ hashStructMsg m)

/-- The digest the relay scripts ask the authority to sign. -/
def relayDigest (chainId : Nat) (verifyingContract : List Nat)
    (m : SponsoredTransferMsg) : List Nat :=
  hashTypedData (sponsorDomain chainId verifyingContract) m

/-- The typed-data signature of the relay scripts: the authority's key
applied to the typed-data digest. -/
def relaySignature (sign : List Nat → Sig) (chainId : Nat)
    (verifyingContract : List Nat) (m : SponsoredTransferMsg) : Sig :=
  sign (relayDigest chainId verifyingContract m)

/-- The byte form of a recovery id read back as a number: the empty
string denotes `0`, anything else `1`. -/
def yParityOfBytes (b : List Nat) : Nat :=
  if b = [] then 0 else 1

/-! ## Sample concrete inputs (shared by the witness theorems) -/

/-- A concrete signed authorization. -/
def sampleAuth : SignedAuthorization :=
  { chainId := [0xc7, 0xea], address := List.replicate 20 0xde, nonce := [],
    yParity := [1], r := List.replicate 32 2, s := List.replicate 32 3 }

/-- A concrete transaction request carrying one authorization. -/
def sampleTx : TransactionRequest :=
  { chainId := [0xc7, 0xea], nonce := [], maxPriorityFeePerGas := [1],
    maxFeePerGas := [2], gasLimit := [3, 4],
    destination := List.replicate 20 0xaa, value := [], data := [],
    accessList := [], authorizationList := [sampleAuth] }

/-- A concrete signature with recovery id `0`. -/
def sampleSig : Sig :=
  { yParity := 0, r := List.replicate 32 5, s := List.replicate 32 6 }

/-- A concrete stand-in for the external signer. -/
def sampleSigner : List Nat → Sig :=
  fun _ => sampleSig

/-- A concrete unsigned authorization tuple. -/
def sampleAuthData : AuthorizationData :=
  { chainId := [0xc7, 0xea], address := List.replicate 20 0xde, nonce := [] }

/-- A concrete verifying-contract address. -/
def sampleContract : List Nat :=
  List.replicate 19 0 ++ [0xaa]

/-- A concrete relay message with nonce `0`. -/
def sampleMsg : SponsoredTransferMsg :=
  { sender := List.replicate 20 1, recipient := List.replicate 20 2,
    amount := 100, nonce := 0 }

/-! ## Sanity checks of the embedded codecs -/

example : rlpEncode (.bytes []) = [0x80] := by decide
example : rlpEncode (.bytes [0x04, 0x00]) = [0x82, 0x04, 0x00] := by decide
example : rlpEncode (.list [.bytes [5], .list []]) = [0xc2, 5, 0xc0] := by decide
example : natToBE 1024 = [4, 0] := by decide

example : keccak256 [] =
  [0xc5, 0xd2, 0x46, 0x01, 0x86, 0xf7, 0x23, 0x3c, 0x92, 0x7e, 0x7d, 0xb2,
   0xdc, 0xc7, 0x03, 0xc0, 0xe5, 0x00, 0xb6, 0x53, 0xca, 0x82, 0x27, 0x3b,
   0x7b, 0xfa, 0xd8, 0x04, 0x5d, 0x85, 0xa4, 0x70] := by decide

/-! ## Helper lemmas -/

/-- For a recovery id in `{0, 1}` the scripts' byte form agrees with
the minimal big-endian integer form of the wire spec. -/
theorem yParityBytes_eq_natToBE {y : Nat} (h : y < 2) :
    yParityBytes y = natToBE y := by
  interval_cases y <;> decide

/-- Reading the byte form back recovers a recovery id in `{0, 1}`. -/
theorem yParityOfBytes_yParityBytes {y : Nat} (h : y < 2) :
    yParityOfBytes (yParityBytes y) = y := by
  interval_cases y <;> decide

/-- `beW w` encodes exactly the value modulo `256 ^ w`. -/
theorem beVal_beW (w : Nat) : ∀ n, beVal (beW w n) = n % 256 ^ w := by
  induction w with
  | zero => intro n; simp [beW, beVal, Nat.mod_one]
  | succ w ih =>
    intro n
    have hfold : beVal (beW w (n / 256) ++ [n % 256]) =
        beVal (beW w (n / 256)) * 256 + n % 256 := by
      simp [beVal, List.foldl_append]
    rw [beW, hfold, ih, pow_succ']
    have h1 : n % (256 * 256 ^ w) / 256 = n / 256 % 256 ^ w :=
      Nat.mod_mul_right_div_self n 256 (256 ^ w)
    have h2 : n % (256 * 256 ^ w) % 256 = n % 256 :=
      Nat.mod_mod_of_dvd n ⟨256 ^ w, rfl⟩
    set A := n % (256 * 256 ^ w)
    set B := n / 256 % 256 ^ w
    omega

/-- `be32` is injective on `uint256` values. -/
theorem be32_inj {n n' : Nat} (hn : n < 2 ^ 256) (hn' : n' < 2 ^ 256)
    (h : be32 n = be32 n') : n = n' := by
  have e : (2 : Nat) ^ 256 = 256 ^ 32 := by norm_num
  have h1 : n % 256 ^ 32 = n' % 256 ^ 32 := by
    rw [← beVal_beW 32 n, ← beVal_beW 32 n', ← be32, ← be32, h]
  rwa [Nat.mod_eq_of_lt (e ▸ hn), Nat.mod_eq_of_lt (e ▸ hn')] at h1

/-- At the concrete sample inputs, changing the nonce from 0 to 1
changes the typed-data digest itself. -/
theorem relayDigest_nonce_sensitive :
    relayDigest 51178 sampleContract sampleMsg ≠
      relayDigest 51178 sampleContract { sampleMsg with nonce := 1 } := by
  decide

/-! ## The claims -/

/-- Claim C1: for every `TransactionRequest` with the 10 ordered fields
and every sponsor signature, the finalized wire bytes are the type byte
`0x04` followed by the RLP encoding of the 13-element list of the same
10 request fields and `[recoveryId, r, s]` (the recovery id carried as
its minimal integer byte form, per `specFinalizeBytes`); the sponsor's
signature is computed over `keccak256(0x04 ‖ RLP(10-field list))`; and
each embedded authorization is encoded as the 6-element list
`[chainId, address, nonce, recoveryId, r, s]`. -/
theorem claim_C1_wire_format (t : TransactionRequest) (sig : Sig)
    (sign : List Nat → Sig) (h : sig.yParity < 2) :
    signedTx t sig = specFinalizeBytes t sig ∧
    signedTx t sig = 0x04 :: rlpEncode (.list (txFields t ++
      [.bytes (yParityBytes sig.yParity), .bytes sig.r, .bytes sig.s])) ∧
    sponsorSignedTx sign t =
      signedTx t (sign (keccak256 (0x04 :: rlpEncode (.list (txFields t))))) ∧
    ∀ a ∈ t.authorizationList, authorizationItem a =
      .list [.bytes a.chainId, .bytes a.address, .bytes a.nonce,
             .bytes a.yParity, .bytes a.r, .bytes a.s] := by
  refine ⟨?_, rfl, rfl, fun a _ => rfl⟩
  unfold signedTx specFinalizeBytes
  rw [yParityBytes_eq_natToBE h]

/-- Witness for C1 at a concrete request, signature and signer. -/
theorem claim_C1_wire_format_witness :
    signedTx sampleTx sampleSig = specFinalizeBytes sampleTx sampleSig ∧
    signedTx sampleTx sampleSig = 0x04 :: rlpEncode (.list (txFields sampleTx ++
      [.bytes (yParityBytes sampleSig.yParity), .bytes sampleSig.r,
       .bytes sampleSig.s])) ∧
    sponsorSignedTx sampleSigner sampleTx =
      signedTx sampleTx
        (sampleSigner (keccak256 (0x04 :: rlpEncode (.list (txFields sampleTx))))) ∧
    ∀ a ∈ sampleTx.authorizationList, authorizationItem a =
      .list [.bytes a.chainId, .bytes a.address, .bytes a.nonce,
             .bytes a.yParity, .bytes a.r, .bytes a.s] :=
  claim_C1_wire_format sampleTx sampleSig sampleSigner (by decide)

/-- Claim C2: the digest the authority signs is keccak256 of the magic
byte `0x05` followed by `RLP([chainId, address, nonce])`, and the
signed authorization attaches exactly the `{recoveryId, r, s}` of that
signature to the tuple (the recovery id stored in its byte form, from
which the numeric id is recovered exactly). -/
theorem claim_C2_auth_digest (sign : List Nat → Sig) (a : AuthorizationData)
    (h : (sign (authorizationDataHash a)).yParity < 2) :
    authorizationDataHash a = keccak256 (0x05 :: rlpEncode (.list
      [.bytes a.chainId, .bytes a.address, .bytes a.nonce])) ∧
    (signAuthorization sign a).chainId = a.chainId ∧
    (signAuthorization sign a).address = a.address ∧
    (signAuthorization sign a).nonce = a.nonce ∧
    (signAuthorization sign a).yParity =
      yParityBytes (sign (authorizationDataHash a)).yParity ∧
    yParityOfBytes (signAuthorization sign a).yParity =
      (sign (authorizationDataHash a)).yParity ∧
    (signAuthorization sign a).r = (sign (authorizationDataHash a)).r ∧
    (signAuthorization sign a).s = (sign (authorizationDataHash a)).s := by
  refine ⟨rfl, rfl, rfl, rfl, rfl, ?_, rfl, rfl⟩
  exact yParityOfBytes_yParityBytes h

/-- Witness for C2 at a concrete tuple and signer. -/
theorem claim_C2_auth_digest_witness :
    authorizationDataHash sampleAuthData = keccak256 (0x05 :: rlpEncode (.list
      [.bytes sampleAuthData.chainId, .bytes sampleAuthData.address,
       .bytes sampleAuthData.nonce])) ∧
    (signAuthorization sampleSigner sampleAuthData).chainId = sampleAuthData.chainId ∧
    (signAuthorization sampleSigner sampleAuthData).address = sampleAuthData.address ∧
    (signAuthorization sampleSigner sampleAuthData).nonce = sampleAuthData.nonce ∧
    (signAuthorization sampleSigner sampleAuthData).yParity =
      yParityBytes (sampleSigner (authorizationDataHash sampleAuthData)).yParity ∧
    yParityOfBytes (signAuthorization sampleSigner sampleAuthData).yParity =
      (sampleSigner (authorizationDataHash sampleAuthData)).yParity ∧
    (signAuthorization sampleSigner sampleAuthData).r =
      (sampleSigner (authorizationDataHash sampleAuthData)).r ∧
    (signAuthorization sampleSigner sampleAuthData).s =
      (sampleSigner (authorizationDataHash sampleAuthData)).s :=
  claim_C2_auth_digest sampleSigner sampleAuthData (by decide)

/-- Claim C3 (code bug): `sponsoredTransaction.js` embeds the SPONSOR's
transaction count into the authorization tuple, so when the authority's
own next nonce (say 5) differs from the sponsor's (say 7) the embedded
nonce is the sponsor's, contradicting the claimed invariant; the
`logEmitterEIP7702` script embeds the authority's nonce instead. -/
theorem claim_C3_nonce_divergence :
    (∀ chainId delegate sponsorNonce,
      (sponsoredTxAuthorizationData chainId delegate sponsorNonce).nonce =
        toBeBytes sponsorNonce) ∧
    (∀ chainId delegate aliceNonce,
      (logEmitterAuthorizationData chainId delegate aliceNonce).nonce =
        toBeBytes aliceNonce) ∧
    (sponsoredTxAuthorizationData [0xc7, 0xea] (List.replicate 20 0xde) 7).nonce
      = [7] ∧
    toBeBytes 5 = [5] ∧
    (sponsoredTxAuthorizationData [0xc7, 0xea] (List.replicate 20 0xde) 7).nonce
      ≠ toBeBytes 5 := by
  exact ⟨fun _ _ _ => rfl, fun _ _ _ => rfl, by decide, by decide, by decide⟩

/-- Claim C4 (code bug): the scripts convert integers with
`ethers.toBeHex`, which maps `0` to the single byte `0x00`, not to the
empty byte-string; hence RLP of the converted `0` is `0x00`, different
from RLP of the empty byte-string (`0x80`).  The `1024` part of the
claim does hold. -/
theorem claim_C4_zero_encoding :
    toBeBytes 0 = [0] ∧
    rlpEncode (.bytes (toBeBytes 0)) = [0x00] ∧
    rlpEncode (.bytes []) = [0x80] ∧
    rlpEncode (.bytes (toBeBytes 0)) ≠ rlpEncode (.bytes []) ∧
    toBeBytes 1024 = [0x04, 0x00] ∧
    rlpEncode (.bytes (toBeBytes 1024)) = [0x82, 0x04, 0x00] := by
  refine ⟨by decide, by decide, by decide, by decide, by decide, by decide⟩

/-- Claim C5: `finalize` (modelled from the spec; no script implements
the failure path) fails with `UnsignedPayloadError` when no signature
exists, fails when the recorded signature was computed over payload
bytes other than those of the request being finalized, and succeeds
exactly on the matching payload. -/
theorem claim_C5_unsigned_payload (t : TransactionRequest) :
    finalize t none = .error .UnsignedPayloadError ∧
    (∀ sp : SignedPayload, sp.payload ≠ encodedTxData t →
      finalize t (some sp) = .error .UnsignedPayloadError) ∧
    (∀ sp : SignedPayload, sp.payload = encodedTxData t →
      finalize t (some sp) = .ok (signedTx t sp.signature)) := by
  refine ⟨rfl, ?_, ?_⟩ <;> intro sp h <;> simp [finalize, h]

/-- Witness for C5: at a concrete request, a missing signature and a
mismatched payload fail, the matching payload succeeds. -/
theorem claim_C5_unsigned_payload_witness :
    finalize sampleTx none = .error .UnsignedPayloadError ∧
    finalize sampleTx (some { payload := [], signature := sampleSig }) =
      .error .UnsignedPayloadError ∧
    finalize sampleTx
        (some { payload := encodedTxData sampleTx, signature := sampleSig }) =
      .ok (signedTx sampleTx sampleSig) :=
  ⟨(claim_C5_unsigned_payload sampleTx).1,
   (claim_C5_unsigned_payload sampleTx).2.1
     { payload := [], signature := sampleSig } (by decide),
   (claim_C5_unsigned_payload sampleTx).2.2
     { payload := encodedTxData sampleTx, signature := sampleSig } rfl⟩

/-- Claim C6: the relay signature is produced under exactly the domain
`{name: "Sponsor", version: "1", chainId, verifyingContract}` and the
`SponsoredTransfer` schema; the typed-data hash is identical across
calls with identical inputs; changing the nonce alone changes the
struct-hash preimage (universally, for distinct `uint256` nonces) and
changes the digest itself at the concrete sample message. -/
theorem claim_C6_typed_data (sign : List Nat → Sig) (chainId : Nat)
    (vc : List Nat) (m m' : SponsoredTransferMsg) (hm : m = m')
    (n n' : Nat) (hn : n < 2 ^ 256) (hn' : n' < 2 ^ 256) (hne : n ≠ n') :
    sponsorDomain chainId vc =
      { name := strBytes "Sponsor", version := strBytes "1",
        chainId := chainId, verifyingContract := vc } ∧
    relayDigest chainId vc m =
      keccak256 ([0x19, 0x01] ++ hashStructDomain (sponsorDomain chainId vc) ++
        keccak256 (keccak256 sponsoredTransferTypeStr ++ addr32 m.sender ++
          addr32 m.recipient ++ be32 m.amount ++ be32 m.nonce)) ∧
    relaySignature sign chainId vc m = sign (relayDigest chainId vc m) ∧
    relayDigest chainId vc m = relayDigest chainId vc m' ∧
    msgEncodeData { m with nonce := n } ≠ msgEncodeData { m with nonce := n' } ∧
    relayDigest 51178 sampleContract sampleMsg ≠
      relayDigest 51178 sampleContract { sampleMsg with nonce := 1 } := by
  subst hm
  refine ⟨rfl, rfl, rfl, rfl, ?_, relayDigest_nonce_sensitive⟩
  intro hEq
  apply hne
  apply be32_inj hn hn'
  simpa only [msgEncodeData, List.append_cancel_left_eq] using hEq

/-- Witness for C6 at the concrete sample inputs, nonces 0 and 1. -/
theorem claim_C6_typed_data_witness :
    sponsorDomain 51178 sampleContract =
      { name := strBytes "Sponsor", version := strBytes "1",
        chainId := 51178, verifyingContract := sampleContract } ∧
    relayDigest 51178 sampleContract sampleMsg =
      keccak256 ([0x19, 0x01] ++
        hashStructDomain (sponsorDomain 51178 sampleContract) ++
        keccak256 (keccak256 sponsoredTransferTypeStr ++ addr32 sampleMsg.sender ++
          addr32 sampleMsg.recipient ++ be32 sampleMsg.amount ++
          be32 sampleMsg.nonce)) ∧
    relaySignature sampleSigner 51178 sampleContract sampleMsg =
      sampleSigner (relayDigest 51178 sampleContract sampleMsg) ∧
    relayDigest 51178 sampleContract sampleMsg =
      relayDigest 51178 sampleContract sampleMsg ∧
    msgEncodeData { sampleMsg with nonce := 0 } ≠
      msgEncodeData { sampleMsg with nonce := 1 } ∧
    relayDigest 51178 sampleContract sampleMsg ≠
      relayDigest 51178 sampleContract { sampleMsg with nonce := 1 } :=
  claim_C6_typed_data sampleSigner 51178 sampleContract sampleMsg sampleMsg rfl
    0 1 (by decide) (by decide) (by decide)

/-- Claim C7: the final serialization is a pure function of the request
and the signature — two calls on equal inputs give byte-identical
output, and the modelled `finalize` succeeds identically on them. -/
theorem claim_C7_idempotent (t t' : TransactionRequest) (sig sig' : Sig)
    (h1 : t = t') (h2 : sig = sig') :
    signedTx t sig = signedTx t' sig' ∧
    finalize t (some { payload := encodedTxData t, signature := sig }) =
      finalize t' (some { payload := encodedTxData t', signature := sig' }) ∧
    finalize t (some { payload := encodedTxData t, signature := sig }) =
      .ok (signedTx t sig) := by
  subst h1; subst h2
  exact ⟨rfl, rfl, by simp [finalize]⟩

/-- Witness for C7 at a concrete request and signature. -/
theorem claim_C7_idempotent_witness :
    signedTx sampleTx sampleSig = signedTx sampleTx sampleSig ∧
    finalize sampleTx
        (some { payload := encodedTxData sampleTx, signature := sampleSig }) =
      finalize sampleTx
        (some { payload := encodedTxData sampleTx, signature := sampleSig }) ∧
    finalize sampleTx
        (some { payload := encodedTxData sampleTx, signature := sampleSig }) =
      .ok (signedTx sampleTx sampleSig) :=
  claim_C7_idempotent sampleTx sampleTx sampleSig sampleSig rfl rfl

/-- Claim C9: the whole authorization build-and-sign procedure is a
deterministic function of `(chainId, address, nonce)` and the signing
function — equal inputs give the same preimage, the same keccak256
digest and the same attached signature components. -/
theorem claim_C9_deterministic (sign : List Nat → Sig)
    (a a' : AuthorizationData) (h : a = a') :
    encodedAuthorizationData a = encodedAuthorizationData a' ∧
    authorizationDataHash a = authorizationDataHash a' ∧
    signAuthorization sign a = signAuthorization sign a' := by
  subst h
  exact ⟨rfl, rfl, rfl⟩

/-- Witness for C9 at a concrete tuple and signer. -/
theorem claim_C9_deterministic_witness :
    encodedAuthorizationData sampleAuthData = encodedAuthorizationData sampleAuthData ∧
    authorizationDataHash sampleAuthData = authorizationDataHash sampleAuthData ∧
    signAuthorization sampleSigner sampleAuthData =
      signAuthorization sampleSigner sampleAuthData :=
  claim_C9_deterministic sampleSigner sampleAuthData sampleAuthData rfl

/-- Claim C10: every recovery-id field placed into an RLP list is the
empty byte-string for parity 0 and the single byte `0x01` for parity 1
— never the legacy 27/28 form — both in signed authorizations and in
the finalized transaction; the 27/28 `v` exists only as the
`Signature.v` value passed inside the `sponsoredTransfer` calldata. -/
theorem claim_C10_yparity_form (sig : Sig) (sign : List Nat → Sig)
    (a : AuthorizationData) (t : TransactionRequest) :
    yParityBytes 0 = [] ∧
    yParityBytes 1 = [0x01] ∧
    (∀ y, yParityBytes y = [] ∨ yParityBytes y = [1]) ∧
    (∀ y, yParityBytes y ≠ [27] ∧ yParityBytes y ≠ [28]) ∧
    (signAuthorization sign a).yParity =
      yParityBytes (sign (authorizationDataHash a)).yParity ∧
    signedTx t sig = 0x04 :: rlpEncode (.list (txFields t ++
      [.bytes (yParityBytes sig.yParity), .bytes sig.r, .bytes sig.s])) ∧
    sigV 0 = 27 ∧ sigV 1 = 28 := by
  refine ⟨rfl, rfl, ?_, ?_, rfl, rfl, rfl, rfl⟩ <;>
    intro y <;> unfold yParityBytes <;> split <;> simp

/-- Witness for C10 at concrete inputs. -/
theorem claim_C10_yparity_form_witness :
    yParityBytes 0 = [] ∧
    yParityBytes 1 = [0x01] ∧
    (∀ y, yParityBytes y = [] ∨ yParityBytes y = [1]) ∧
    (∀ y, yParityBytes y ≠ [27] ∧ yParityBytes y ≠ [28]) ∧
    (signAuthorization sampleSigner sampleAuthData).yParity =
      yParityBytes (sampleSigner (authorizationDataHash sampleAuthData)).yParity ∧
    signedTx sampleTx sampleSig = 0x04 :: rlpEncode (.list (txFields sampleTx ++
      [.bytes (yParityBytes sampleSig.yParity), .bytes sampleSig.r,
       .bytes sampleSig.s])) ∧
    sigV 0 = 27 ∧ sigV 1 = 28 :=
  claim_C10_yparity_form sampleSig sampleSigner sampleAuthData sampleTx

end Eip7702
